import Mathlib

/-!
Shallow embedding of the stream multiplexer of `src/client/http-client.ts`
(classes `DefaultStreamClient` and `DefaultStream`).

The multiplexer owns a registry mapping request ids to stream records and a
single socket (the Connection collaborator).  We model the registry as an
insertion-ordered association list (JavaScript object keys iterate in
insertion order), the socket as a `connected` flag, and every externally
observable effect (connect, disconnect, send, failed send, record
insertion/removal, callback delivery) as an event appended to a trace.
Socket sends may fail; each operation takes a boolean telling whether the
send performed by that operation succeeds, which models the transport
outcome.  Stream callbacks are modelled as opaque numeric tokens recorded in
delivery events.
-/

deriving instance DecidableEq for Except

namespace StreamClient

/-- An outbound message as the multiplexer sees it: the `req_id` used as the
registry key, the `start_block` field that `restart` overrides, and a `typ`
field standing for the rest of the payload (inert under the shallow copy
`{ ...this.registrationMessage }`). -/
structure OutboundMessage where
  typ : String
  req_id : String
  start_block : Option Int
  deriving DecidableEq

/-- An inbound message: `req_id` is optional because the TypeScript routing
uses `message.req_id || ""`. -/
structure InboundMessage where
  typ : String
  req_id : Option String
  deriving DecidableEq

/-- The `StreamMarker` shape from `src/types/stream.ts` usage: `{ atBlockNum: number }`. -/
structure StreamMarker where
  atBlockNum : Int
  deriving DecidableEq

/-- The per-stream state held by a `DefaultStream` object: the original
registration message (kept verbatim), the optional marker set by `mark`, and
the stream's message callback (an opaque token). -/
structure StreamState where
  registrationMessage : OutboundMessage
  activeMarker : Option StreamMarker
  onMessageToken : Nat
  deriving DecidableEq

/-- Observable effects, in the order they happen. -/
inductive Event where
  | connected
  | disconnected
  | inserted (id : String)
  | removed (id : String)
  | sent (m : OutboundMessage)
  | sendFailed (m : OutboundMessage)
  | callback (token : Nat) (m : InboundMessage)
  deriving DecidableEq

/-- State of a `DefaultStreamClient`: the registry (insertion-ordered),
whether the socket is connected, the `autoRestartStreamsOnReconnect` option,
and the trace of effects so far. -/
structure ClientState where
  streams : List (String × StreamState)
  connected : Bool
  autoRestart : Bool
  trace : List Event
  deriving DecidableEq

/-- Error taxonomy.  The TypeScript code raises `DfuseClientError` with
distinguishing messages (and, for `registrationError`, a wrapped cause); the
constructors here model those distinctions, named after the spec's taxonomy. -/
inductive ClientError where
  | duplicateStream (id : String)
  | registrationError (id : String)
  | streamNotRegistered (id : String)
  | sendFailed
  deriving DecidableEq

def exceptOk : Except ClientError Unit → Bool
  | Except.ok _ => true
  | Except.error _ => false

/-- Registry lookup: `this.streams[id]`. -/
def lookupStream : List (String × StreamState) → String → Option StreamState
  | [], _ => none
  | (k, v) :: rest, id => if k = id then some v else lookupStream rest id

/-- Registry removal: `delete this.streams[id]` (keys are unique, so removing
the first occurrence is full removal). -/
def eraseStream : List (String × StreamState) → String → List (String × StreamState)
  | [], _ => []
  | (k, v) :: rest, id => if k = id then rest else (k, v) :: eraseStream rest id

/-- In-place update of the record stored under `id` (used by `mark`). -/
def updateStream : List (String × StreamState) → String →
    (StreamState → StreamState) → List (String × StreamState)
  | [], _, _ => []
  | (k, v) :: rest, id, f =>
    if k = id then (k, f v) :: updateStream rest id f
    else (k, v) :: updateStream rest id f

/-- State of `createStreamClient` / a fresh `DefaultStreamClient`: empty registry,
disconnected socket. -/
def initialState (autoRestart : Bool) : ClientState :=
  { streams := [], connected := false, autoRestart := autoRestart, trace := [] }

/-- Effect of `socket.connect(...)`: the socket becomes connected. -/
def connectSocket (st : ClientState) : ClientState :=
  { st with connected := true, trace := st.trace ++ [Event.connected] }

/-- Effect of `socket.disconnect()`: the socket becomes disconnected. -/
def disconnectSocket (st : ClientState) : ClientState :=
  { st with connected := false, trace := st.trace ++ [Event.disconnected] }

/-- Modelled from the spec: the `unlistenMessage` constructor lives in
`src/message/outbound.ts`, which is not among the sampled sources; per the
spec it builds the cancellation message carrying the stream's id. -/
def unlistenMessage (req_id : String) : OutboundMessage :=
  { typ := "unlisten", req_id := req_id, start_block := none }

/-- Embedding of `DefaultStreamClient.registerStream`.  If the registry is empty, connect
the socket first; fail on a duplicate id; insert the record; send the
registration message (`stream.start()`), rolling the insertion back and
failing with a registration error when the send fails. -/
def registerStream (st : ClientState) (message : OutboundMessage)
    (onMessageToken : Nat) (sendOk : Bool) : Except ClientError Unit × ClientState :=
  let st1 := if st.streams.isEmpty then connectSocket st else st
  let id := message.req_id
  if (lookupStream st1.streams id).isSome then
    (Except.error (ClientError.duplicateStream id), st1)
  else
    let record : StreamState :=
      { registrationMessage := message, activeMarker := none,
        onMessageToken := onMessageToken }
    let st2 := { st1 with
      streams := st1.streams ++ [(id, record)],
      trace := st1.trace ++ [Event.inserted id] }
    if sendOk then
      (Except.ok (), { st2 with trace := st2.trace ++ [Event.sent message] })
    else
      (Except.error (ClientError.registrationError id),
       { st2 with
         streams := eraseStream st2.streams id,
         trace := st2.trace ++ [Event.sendFailed message, Event.removed id] })

/-- Embedding of `DefaultStreamClient.unregisterStream`.  Unknown id: no-op success.
Otherwise remove the record, then send the unlisten message, then disconnect
the socket when the registry has become empty.  A failed send propagates the
error after the removal, skipping the disconnect. -/
def unregisterStream (st : ClientState) (id : String) (sendOk : Bool) :
    Except ClientError Unit × ClientState :=
  if (lookupStream st.streams id).isNone then
    (Except.ok (), st)
  else
    let message := unlistenMessage id
    let st1 := { st with
      streams := eraseStream st.streams id,
      trace := st.trace ++ [Event.removed id] }
    if sendOk then
      let st2 := { st1 with trace := st1.trace ++ [Event.sent message] }
      if st2.streams.isEmpty then (Except.ok (), disconnectSocket st2)
      else (Except.ok (), st2)
    else
      (Except.error ClientError.sendFailed,
       { st1 with trace := st1.trace ++ [Event.sendFailed message] })

/-- Embedding of `DefaultStreamClient.handleMessage`: route by `message.req_id || ""`;
deliver to the matching record's callback, or drop silently. -/
def handleMessage (st : ClientState) (message : InboundMessage) : ClientState :=
  match lookupStream st.streams (message.req_id.getD "") with
  | none => st
  | some record =>
    { st with trace := st.trace ++ [Event.callback record.onMessageToken message] }

/-- The restart message built by `DefaultStream.restart`: a shallow copy of
the registration message whose `start_block` is overridden by the explicit
marker argument if given, else by the stored marker if set, else left as in
the original. -/
def restartMessageOf (record : StreamState) (marker : Option StreamMarker) :
    OutboundMessage :=
  match marker with
  | some m => { record.registrationMessage with start_block := some m.atBlockNum }
  | none =>
    match record.activeMarker with
    | some m => { record.registrationMessage with start_block := some m.atBlockNum }
    | none => record.registrationMessage

/-- Embedding of `DefaultStream.restart`: fail when the stream is no longer registered
(`streamExists` query); otherwise send the restart message. -/
def restartStream (st : ClientState) (id : String) (marker : Option StreamMarker)
    (sendOk : Bool) : Except ClientError Unit × ClientState :=
  match lookupStream st.streams id with
  | none => (Except.error (ClientError.streamNotRegistered id), st)
  | some record =>
    let restartMessage := restartMessageOf record marker
    if sendOk then
      (Except.ok (), { st with trace := st.trace ++ [Event.sent restartMessage] })
    else
      (Except.error ClientError.sendFailed,
       { st with trace := st.trace ++ [Event.sendFailed restartMessage] })

/-- Embedding of `DefaultStream.mark`: replace the marker of the stream. -/
def markStream (st : ClientState) (id : String) (options : StreamMarker) :
    ClientState :=
  { st with
    streams := updateStream st.streams id
      (fun r => { r with activeMarker := some options }) }

/-- Embedding of `DefaultStreamClient.handleReconnection`: nothing when auto-restart is
disabled; otherwise call `restart()` on every registered stream, in registry
order, each send succeeding or failing independently (`sendOk` per id). -/
def handleReconnection (st : ClientState) (sendOk : String → Bool) : ClientState :=
  if st.autoRestart = false then st
  else
    (st.streams.map Prod.fst).foldl
      (fun s streamId => (restartStream s streamId none (sendOk streamId)).2) st

/-- The events an operation appended to the trace. -/
def newEvents (st st' : ClientState) : List Event :=
  st'.trace.drop st.trace.length

/-- A caller-visible operation on the multiplexer, with the transport outcome
of the send it performs. -/
inductive Op where
  | register (message : OutboundMessage) (onMessageToken : Nat) (sendOk : Bool)
  | unregister (id : String) (sendOk : Bool)
  deriving DecidableEq

def stepOp (st : ClientState) : Op → ClientState
  | Op.register m tok ok => (registerStream st m tok ok).2
  | Op.unregister id ok => (unregisterStream st id ok).2

def runOps : ClientState → List Op → ClientState
  | st, [] => st
  | st, op :: rest => runOps (stepOp st op) rest

/-- Contributes 1 when the operation is a register call that succeeds from `st`. -/
def regInc (st : ClientState) : Op → Nat
  | Op.register m tok ok => if exceptOk (registerStream st m tok ok).1 then 1 else 0
  | Op.unregister _ _ => 0

/-- Contributes 1 when the operation is an unregister call whose id is present in `st`. -/
def unregInc (st : ClientState) : Op → Nat
  | Op.register _ _ _ => 0
  | Op.unregister id _ => if (lookupStream st.streams id).isSome then 1 else 0

/-- Number of successful register calls along the run. -/
def nSuccessfulRegisters : ClientState → List Op → Nat
  | _, [] => 0
  | st, op :: rest => regInc st op + nSuccessfulRegisters (stepOp st op) rest

/-- Number of unregister calls of a present id along the run. -/
def nEffectiveUnregisters : ClientState → List Op → Nat
  | _, [] => 0
  | st, op :: rest => unregInc st op + nEffectiveUnregisters (stepOp st op) rest

def opSendOk : Op → Bool
  | Op.register _ _ ok => ok
  | Op.unregister _ ok => ok

/-- Every send performed along the sequence succeeds. -/
def allSendsOk (ops : List Op) : Bool := ops.all opSendOk

/-- The send attempt (successful or failed) for a message. -/
def attemptEvent (m : OutboundMessage) (ok : Bool) : Event :=
  if ok then Event.sent m else Event.sendFailed m

/-- Whether an event is a send attempt of a message addressed to `id`. -/
def isAttemptFor (id : String) : Event → Bool
  | Event.sent m => m.req_id = id
  | Event.sendFailed m => m.req_id = id
  | _ => false

end StreamClient

namespace StreamClient

/-! ### Fixtures used by witnesses -/

def mA : OutboundMessage := { typ := "get_action_traces", req_id := "a", start_block := none }

def mB : OutboundMessage := { typ := "get_table_rows", req_id := "b", start_block := some 10 }

def recA : StreamState := { registrationMessage := mA, activeMarker := none, onMessageToken := 0 }

def recB : StreamState := { registrationMessage := mB, activeMarker := none, onMessageToken := 1 }

/-- A client with streams `a` and `b` registered (both sends succeeded). -/
def stAB : ClientState :=
  (registerStream ((registerStream (initialState true) mA 0 true).2) mB 1 true).2

/-! ### Helper lemmas about the registry -/

theorem lookupStream_isEmpty_false {l : List (String × StreamState)} {id : String}
    {r : StreamState} (h : lookupStream l id = some r) : l.isEmpty = false := by
  cases l with
  | nil => simp [lookupStream] at h
  | cons p rest => simp

theorem eraseStream_append_self {l : List (String × StreamState)} {id : String}
    (r : StreamState) (h : lookupStream l id = none) :
    eraseStream (l ++ [(id, r)]) id = l := by
  induction l with
  | nil => simp [eraseStream]
  | cons p rest ih =>
    rcases p with ⟨k, v⟩
    by_cases hk : k = id
    · simp [lookupStream, hk] at h
    · simp only [lookupStream, if_neg hk] at h
      simp [eraseStream, hk, ih h]

theorem eraseStream_length {l : List (String × StreamState)} {id : String} {r : StreamState}
    (h : lookupStream l id = some r) : (eraseStream l id).length + 1 = l.length := by
  induction l with
  | nil => simp [lookupStream] at h
  | cons p rest ih =>
    rcases p with ⟨k, v⟩
    by_cases hk : k = id
    · simp [eraseStream, hk]
    · simp only [lookupStream, if_neg hk] at h
      simp [eraseStream, hk, ih h]

theorem lookupStream_not_mem {l : List (String × StreamState)} {id : String}
    (h : id ∉ l.map Prod.fst) : lookupStream l id = none := by
  induction l with
  | nil => rfl
  | cons p rest ih =>
    rcases p with ⟨k, v⟩
    simp only [List.map_cons, List.mem_cons] at h
    push_neg at h
    simp only [lookupStream, if_neg (fun hh : k = id => h.1 hh.symm)]
    exact ih h.2

theorem lookupStream_eraseStream_self {l : List (String × StreamState)} {id : String}
    (h : (l.map Prod.fst).Nodup) : lookupStream (eraseStream l id) id = none := by
  induction l with
  | nil => rfl
  | cons p rest ih =>
    rcases p with ⟨k, v⟩
    simp only [List.map_cons, List.nodup_cons] at h
    by_cases hk : k = id
    · subst hk
      simp only [eraseStream, if_pos rfl]
      exact lookupStream_not_mem h.1
    · simp only [eraseStream, if_neg hk, lookupStream]
      exact ih h.2

theorem lookupStream_of_mem {l : List (String × StreamState)} {p : String × StreamState}
    (hN : (l.map Prod.fst).Nodup) (hm : p ∈ l) : lookupStream l p.1 = some p.2 := by
  induction l with
  | nil => cases hm
  | cons q rest ih =>
    rcases q with ⟨k, v⟩
    simp only [List.map_cons, List.nodup_cons] at hN
    rcases List.mem_cons.mp hm with h1 | h1
    · subst h1
      simp [lookupStream]
    · have hk : k ≠ p.1 := by
        intro hh
        exact hN.1 (hh ▸ (List.mem_map.mpr ⟨p, h1, rfl⟩))
      simp only [lookupStream, if_neg hk]
      exact ih hN.2 h1

theorem lookupStream_updateStream {l : List (String × StreamState)} {id : String}
    {f : StreamState → StreamState} :
    lookupStream (updateStream l id f) id = Option.map f (lookupStream l id) := by
  induction l with
  | nil => rfl
  | cons p rest ih =>
    rcases p with ⟨k, v⟩
    by_cases hk : k = id
    · subst hk
      simp [updateStream, lookupStream]
    · simp only [updateStream, if_neg hk, lookupStream]
      exact ih

theorem restartStream_state (st : ClientState) (id : String) (mk : Option StreamMarker)
    (ok : Bool) :
    ((restartStream st id mk ok).2).streams = st.streams ∧
    ((restartStream st id mk ok).2).connected = st.connected ∧
    ((restartStream st id mk ok).2).autoRestart = st.autoRestart := by
  unfold restartStream
  cases h : lookupStream st.streams id <;> cases ok <;> simp

theorem newEvents_eq {st st' : ClientState} {evs : List Event}
    (h : st'.trace = st.trace ++ evs) : newEvents st st' = evs := by
  simp [newEvents, h, List.drop_left]

end StreamClient

namespace StreamClient

def mC : OutboundMessage := { typ := "get_transaction", req_id := "c", start_block := some 5 }

def inbB : InboundMessage := { typ := "row", req_id := some "b" }

def inbZ : InboundMessage := { typ := "row", req_id := some "zz" }

/-- A client with only stream `a` registered. -/
def stA : ClientState := (registerStream (initialState true) mA 0 true).2

/-- C8: `restart` called on a stream that is no longer (or was never) present
in the registry fails with a `StreamNotRegisteredError` naming the id, and no
message is sent: the client state is unchanged. -/
theorem restart_unregistered_fails (st : ClientState) (id : String)
    (mk : Option StreamMarker) (ok : Bool) (h : lookupStream st.streams id = none) :
    restartStream st id mk ok = (Except.error (ClientError.streamNotRegistered id), st) := by
  simp [restartStream, h]

theorem restart_unregistered_fails_witness :
    restartStream stAB "zz" none true =
      (Except.error (ClientError.streamNotRegistered "zz"), stAB) :=
  restart_unregistered_fails stAB "zz" none true (by decide)

/-- C9: `unregisterStream` of an unknown id is a no-op success: no error, the
state (registry, socket, trace) is untouched, so no message is sent and no
connect or disconnect happens. -/
theorem unregister_unknown_noop (st : ClientState) (id : String) (ok : Bool)
    (h : lookupStream st.streams id = none) :
    unregisterStream st id ok = (Except.ok (), st) := by
  simp [unregisterStream, h]

theorem unregister_unknown_noop_witness :
    unregisterStream stAB "zz" true = (Except.ok (), stAB) :=
  unregister_unknown_noop stAB "zz" true (by decide)

/-- C7: inbound routing.  A message whose id (via `req_id || ""`) matches a
registered record is delivered synchronously to exactly that record's
callback; a message matching no record changes nothing (dropped silently,
no callback, no error). -/
theorem handleMessage_routing (st : ClientState) (msg : InboundMessage) :
    (∀ r, lookupStream st.streams (msg.req_id.getD "") = some r →
        handleMessage st msg =
          { st with trace := st.trace ++ [Event.callback r.onMessageToken msg] }) ∧
    (lookupStream st.streams (msg.req_id.getD "") = none → handleMessage st msg = st) := by
  constructor
  · intro r h
    simp [handleMessage, h]
  · intro h
    simp [handleMessage, h]

theorem handleMessage_routing_witness :
    handleMessage stAB inbB =
      { stAB with trace := stAB.trace ++ [Event.callback recB.onMessageToken inbB] } ∧
    handleMessage stAB inbZ = stAB :=
  ⟨(handleMessage_routing stAB inbB).1 recB (by decide),
   (handleMessage_routing stAB inbZ).2 (by decide)⟩

/-- C2: when the send of the initial registration message fails,
`registerStream` removes the just-inserted record before the error
propagates: it fails with a registration error wrapping the cause and the
registry afterwards is exactly what it was before, with no entry for the
id. -/
theorem register_send_failure_rollback (st : ClientState) (m : OutboundMessage) (tok : Nat)
    (h : lookupStream st.streams m.req_id = none) :
    (registerStream st m tok false).1 =
      Except.error (ClientError.registrationError m.req_id) ∧
    ((registerStream st m tok false).2).streams = st.streams ∧
    lookupStream ((registerStream st m tok false).2).streams m.req_id = none := by
  have hE :=
    eraseStream_append_self
      { registrationMessage := m, activeMarker := none, onMessageToken := tok } h
  cases hEmp : st.streams.isEmpty <;>
    simp [registerStream, hEmp, connectSocket, h, hE]

theorem register_send_failure_rollback_witness :
    (registerStream stAB mC 2 false).1 =
      Except.error (ClientError.registrationError mC.req_id) ∧
    ((registerStream stAB mC 2 false).2).streams = stAB.streams ∧
    lookupStream ((registerStream stAB mC 2 false).2).streams mC.req_id = none :=
  register_send_failure_rollback stAB mC 2 (by decide)

/-- C3: registering an id that already has an active record fails with a
`DuplicateStreamError` naming the id and leaves the whole client state
unchanged; in particular the existing record still routes inbound messages
carrying that id to its own callback. -/
theorem register_duplicate_fails (st : ClientState) (m : OutboundMessage) (tok : Nat)
    (ok : Bool) (r : StreamState) (h : lookupStream st.streams m.req_id = some r) :
    registerStream st m tok ok = (Except.error (ClientError.duplicateStream m.req_id), st) ∧
    ∀ msg : InboundMessage, msg.req_id = some m.req_id →
      handleMessage (registerStream st m tok ok).2 msg =
        { st with trace := st.trace ++ [Event.callback r.onMessageToken msg] } := by
  have hE := lookupStream_isEmpty_false h
  have h1 : registerStream st m tok ok =
      (Except.error (ClientError.duplicateStream m.req_id), st) := by
    simp [registerStream, hE, h]
  refine ⟨h1, ?_⟩
  intro msg hmsg
  rw [h1]
  simp [handleMessage, hmsg, h]

theorem register_duplicate_fails_witness :
    registerStream stAB mB 9 true =
      (Except.error (ClientError.duplicateStream mB.req_id), stAB) ∧
    handleMessage (registerStream stAB mB 9 true).2 inbB =
      { stAB with trace := stAB.trace ++ [Event.callback recB.onMessageToken inbB] } := by
  have h := register_duplicate_fails stAB mB 9 true recB (by decide)
  exact ⟨h.1, h.2 inbB (by decide)⟩

end StreamClient

namespace StreamClient

/-- C4: `restart` sends a copy of the original registration message whose
start position is, in priority order, the explicit marker argument, else the
marker stored by `mark`, else the original start position; the stored
registration message is never mutated, so `mark` followed by `restart()`
uses the marked position. -/
theorem restart_marker_priority (st : ClientState) (id : String) (record : StreamState)
    (m b : StreamMarker) (mk : Option StreamMarker) (ok : Bool)
    (h : lookupStream st.streams id = some record) :
    newEvents (markStream st id b)
        (restartStream (markStream st id b) id (some m) true).2 =
      [Event.sent { record.registrationMessage with start_block := some m.atBlockNum }] ∧
    newEvents (markStream st id b)
        (restartStream (markStream st id b) id none true).2 =
      [Event.sent { record.registrationMessage with start_block := some b.atBlockNum }] ∧
    (record.activeMarker = none →
      newEvents st (restartStream st id none true).2 =
        [Event.sent record.registrationMessage]) ∧
    lookupStream ((restartStream st id mk ok).2).streams id = some record := by
  have hm : lookupStream (markStream st id b).streams id =
      some { record with activeMarker := some b } := by
    simp [markStream, lookupStream_updateStream, h]
  refine ⟨?_, ?_, ?_, ?_⟩
  · apply newEvents_eq
    simp [restartStream, hm, restartMessageOf]
  · apply newEvents_eq
    simp [restartStream, hm, restartMessageOf]
  · intro hA
    apply newEvents_eq
    simp [restartStream, h, restartMessageOf, hA]
  · rw [(restartStream_state st id mk ok).1]
    exact h

theorem restart_marker_priority_witness :
    newEvents (markStream stAB "b" ⟨42⟩)
        (restartStream (markStream stAB "b" ⟨42⟩) "b" (some ⟨7⟩) true).2 =
      [Event.sent { recB.registrationMessage with start_block := some (7 : Int) }] ∧
    newEvents (markStream stAB "b" ⟨42⟩)
        (restartStream (markStream stAB "b" ⟨42⟩) "b" none true).2 =
      [Event.sent { recB.registrationMessage with start_block := some (42 : Int) }] ∧
    newEvents stAB (restartStream stAB "b" none true).2 =
      [Event.sent recB.registrationMessage] ∧
    lookupStream ((restartStream stAB "b" none true).2).streams "b" = some recB := by
  have h := restart_marker_priority stAB "b" recB ⟨7⟩ ⟨42⟩ none true (by decide)
  exact ⟨h.1, h.2.1, h.2.2.1 (by decide), h.2.2.2⟩

/-- C6: ordering of registry mutation and network sends.  In a successful
`registerStream` the events are: the connect (exactly when the registry was
empty), then the insertion of the record, then the send of the registration
message — so insertion happens strictly before the send, and for a first
stream the connect completes before the send.  In `unregisterStream` of a
present id the removal event strictly precedes the send of the unlisten
message (followed by the disconnect when the last record was removed). -/
theorem mutation_before_send_ordering (st : ClientState) (m : OutboundMessage)
    (tok : Nat) (id : String) (h : lookupStream st.streams m.req_id = none) :
    newEvents st (registerStream st m tok true).2 =
      (if st.streams.isEmpty then [Event.connected] else []) ++
        [Event.inserted m.req_id, Event.sent m] ∧
    ∀ r, lookupStream st.streams id = some r →
      newEvents st (unregisterStream st id true).2 =
        [Event.removed id, Event.sent (unlistenMessage id)] ++
          (if (eraseStream st.streams id).isEmpty then [Event.disconnected] else []) := by
  constructor
  · apply newEvents_eq
    cases hEmp : st.streams.isEmpty <;>
      simp [registerStream, hEmp, connectSocket, h]
  · intro r hr
    apply newEvents_eq
    cases hD : (eraseStream st.streams id).isEmpty <;>
      simp [unregisterStream, hr, hD, disconnectSocket]

theorem mutation_before_send_ordering_witness :
    newEvents stAB (registerStream stAB mC 2 true).2 =
      (if stAB.streams.isEmpty then [Event.connected] else []) ++
        [Event.inserted mC.req_id, Event.sent mC] ∧
    newEvents stAB (unregisterStream stAB "b" true).2 =
      [Event.removed "b", Event.sent (unlistenMessage "b")] ++
        (if (eraseStream stAB.streams "b").isEmpty then [Event.disconnected] else []) := by
  have h := mutation_before_send_ordering stAB mC 2 "b" (by decide)
  exact ⟨h.1, h.2 recB (by decide)⟩

/-- C10: `unregisterStream` of a present id is not atomic on send failure:
the record is removed before the unlisten send, so a failed send propagates
an error with the record already gone (no rollback), and the
last-stream disconnect is skipped — the socket's connected flag is left as
it was, even with zero registered streams. -/
theorem unregister_send_failure (st : ClientState) (id : String) (r : StreamState)
    (h : lookupStream st.streams id = some r)
    (hN : (st.streams.map Prod.fst).Nodup) :
    (unregisterStream st id false).1 = Except.error ClientError.sendFailed ∧
    ((unregisterStream st id false).2).streams = eraseStream st.streams id ∧
    lookupStream ((unregisterStream st id false).2).streams id = none ∧
    ((unregisterStream st id false).2).connected = st.connected ∧
    newEvents st (unregisterStream st id false).2 =
      [Event.removed id, Event.sendFailed (unlistenMessage id)] := by
  refine ⟨?_, ?_, ?_, ?_, ?_⟩
  · simp [unregisterStream, h]
  · simp [unregisterStream, h]
  · simp [unregisterStream, h, lookupStream_eraseStream_self hN]
  · simp [unregisterStream, h]
  · apply newEvents_eq
    simp [unregisterStream, h]

theorem unregister_send_failure_witness :
    (unregisterStream stA "a" false).1 = Except.error ClientError.sendFailed ∧
    ((unregisterStream stA "a" false).2).streams = eraseStream stA.streams "a" ∧
    lookupStream ((unregisterStream stA "a" false).2).streams "a" = none ∧
    ((unregisterStream stA "a" false).2).connected = stA.connected ∧
    newEvents stA (unregisterStream stA "a" false).2 =
      [Event.removed "a", Event.sendFailed (unlistenMessage "a")] ∧
    stA.connected = true ∧
    eraseStream stA.streams "a" = [] := by
  have h := unregister_send_failure stA "a" recA (by decide) (by decide)
  exact ⟨h.1, h.2.1, h.2.2.1, h.2.2.2.1, h.2.2.2.2, by decide, by decide⟩

end StreamClient

namespace StreamClient

theorem isEmpty_append_singleton (l : List (String × StreamState))
    (p : String × StreamState) : (l ++ [p]).isEmpty = false := by
  cases l <;> simp

theorem stepOp_length (st : ClientState) (op : Op) :
    ((stepOp st op).streams).length + unregInc st op =
      st.streams.length + regInc st op := by
  cases op with
  | register m tok ok =>
    cases hEmp : st.streams.isEmpty with
    | true =>
      have hnil : st.streams = [] := List.isEmpty_iff.mp hEmp
      cases ok <;>
        simp [stepOp, registerStream, hnil, connectSocket, lookupStream, regInc,
          unregInc, exceptOk, eraseStream]
    | false =>
      have hne : st.streams ≠ [] := by
        intro hh
        rw [hh] at hEmp
        simp at hEmp
      cases hL : lookupStream st.streams m.req_id with
      | some r =>
        simp [stepOp, registerStream, hne, hL, regInc, unregInc, exceptOk]
      | none =>
        cases ok with
        | true =>
          simp [stepOp, registerStream, hne, hL, regInc, unregInc, exceptOk]
        | false =>
          simp [stepOp, registerStream, hne, hL, regInc, unregInc, exceptOk,
            eraseStream_append_self _ hL]
  | unregister id ok =>
    cases hL : lookupStream st.streams id with
    | none =>
      simp [stepOp, unregisterStream, hL, regInc, unregInc]
    | some r =>
      have hlen := eraseStream_length hL
      cases ok with
      | true =>
        cases hD : (eraseStream st.streams id).isEmpty <;>
          simp [stepOp, unregisterStream, hL, hD, regInc, unregInc,
            disconnectSocket] <;> omega
      | false =>
        simp [stepOp, unregisterStream, hL, regInc, unregInc]
        omega

theorem runOps_length : ∀ (ops : List Op) (st : ClientState),
    (runOps st ops).streams.length + nEffectiveUnregisters st ops =
      st.streams.length + nSuccessfulRegisters st ops := by
  intro ops
  induction ops with
  | nil =>
    intro st
    simp [runOps, nEffectiveUnregisters, nSuccessfulRegisters]
  | cons op rest ih =>
    intro st
    have hstep := stepOp_length st op
    have hrest := ih (stepOp st op)
    simp only [runOps, nEffectiveUnregisters, nSuccessfulRegisters]
    omega

theorem stepOp_connected (st : ClientState) (op : Op)
    (hC : st.connected = !st.streams.isEmpty) (hOk : opSendOk op = true) :
    (stepOp st op).connected = !(stepOp st op).streams.isEmpty := by
  cases op with
  | register m tok ok =>
    cases ok with
    | false => simp [opSendOk] at hOk
    | true =>
      cases hEmp : st.streams.isEmpty with
      | true =>
        have hnil : st.streams = [] := List.isEmpty_iff.mp hEmp
        simp [stepOp, registerStream, hEmp, hnil, connectSocket, lookupStream]
      | false =>
        have hC2 : st.connected = true := by rw [hC, hEmp]; rfl
        cases hL : lookupStream st.streams m.req_id with
        | some r =>
          simp [stepOp, registerStream, hEmp, hL, hC2]
        | none =>
          simp [stepOp, registerStream, hEmp, hL, hC2, isEmpty_append_singleton]
  | unregister id ok =>
    cases ok with
    | false => simp [opSendOk] at hOk
    | true =>
      cases hL : lookupStream st.streams id with
      | none => simp [stepOp, unregisterStream, hL, hC]
      | some r =>
        have hne : st.streams.isEmpty = false := lookupStream_isEmpty_false hL
        have hC2 : st.connected = true := by rw [hC, hne]; rfl
        cases hD : (eraseStream st.streams id).isEmpty with
        | true => simp [stepOp, unregisterStream, hL, hD, disconnectSocket]
        | false => simp [stepOp, unregisterStream, hL, hD, hC2]

theorem runOps_connected : ∀ (ops : List Op) (st : ClientState),
    st.connected = !st.streams.isEmpty → allSendsOk ops = true →
    (runOps st ops).connected = !(runOps st ops).streams.isEmpty := by
  intro ops
  induction ops with
  | nil =>
    intro st hC _
    simpa [runOps] using hC
  | cons op rest ih =>
    intro st hC hA
    simp only [allSendsOk, List.all_cons, Bool.and_eq_true] at hA
    exact ih (stepOp st op) (stepOp_connected st op hC hA.1) hA.2

end StreamClient

namespace StreamClient

def opsW : List Op :=
  [Op.register mA 0 true, Op.register mB 1 true, Op.unregister "a" true]

/-- C1 (amended): over any sequence of register/unregister calls from a fresh
client, the registry size always satisfies size + (unregisters of present
ids) = (successful registers); and, provided every send in the sequence
succeeded, the Connection is connected iff that size is nonzero.  (The
original claim's "connected iff nonzero" part fails when a registration's
send fails — see the counterexample — because the failed first registration
leaves the socket connected with an empty registry.) -/
theorem register_unregister_count_connected (b : Bool) (ops : List Op) :
    (runOps (initialState b) ops).streams.length +
        nEffectiveUnregisters (initialState b) ops =
      nSuccessfulRegisters (initialState b) ops ∧
    (runOps (initialState b) ops).streams.length =
      nSuccessfulRegisters (initialState b) ops -
        nEffectiveUnregisters (initialState b) ops ∧
    (allSendsOk ops = true →
      ((runOps (initialState b) ops).connected = true ↔
        (runOps (initialState b) ops).streams.length ≠ 0)) := by
  have hlen := runOps_length ops (initialState b)
  have h0 : (initialState b).streams.length = 0 := rfl
  rw [h0, Nat.zero_add] at hlen
  refine ⟨hlen, by omega, ?_⟩
  intro hA
  have hc := runOps_connected ops (initialState b) (by simp [initialState]) hA
  cases hI : (runOps (initialState b) ops).streams with
  | nil =>
    rw [hc, hI]
    simp
  | cons p rest =>
    rw [hc, hI]
    simp

theorem register_unregister_count_connected_witness :
    ((runOps (initialState true) opsW).streams.length +
        nEffectiveUnregisters (initialState true) opsW =
      nSuccessfulRegisters (initialState true) opsW) ∧
    ((runOps (initialState true) opsW).connected = true ↔
      (runOps (initialState true) opsW).streams.length ≠ 0) := by
  have h := register_unregister_count_connected true opsW
  exact ⟨h.1, h.2.2 (by decide)⟩

/-- C1 counterexample: a single `registerStream` whose send fails yields zero
successful registers, zero unregisters and an empty registry — so the claimed
count is 0 — yet the Connection is left connected, refuting "the Connection
is connected iff that count is nonzero" for sequences that include failed
registrations. -/
theorem count_connected_counterexample :
    nSuccessfulRegisters (initialState true) [Op.register mA 0 false] = 0 ∧
    nEffectiveUnregisters (initialState true) [Op.register mA 0 false] = 0 ∧
    (runOps (initialState true) [Op.register mA 0 false]).streams.length = 0 ∧
    (runOps (initialState true) [Op.register mA 0 false]).connected = true := by
  decide

end StreamClient

namespace StreamClient

/-- The send-attempt events `restart()` emits for the stream registered
under `id` in registry `L` (none when the id is absent). -/
def restartAttempts (L : List (String × StreamState)) (f : String → Bool)
    (id : String) : List Event :=
  match lookupStream L id with
  | none => []
  | some r => [attemptEvent (restartMessageOf r none) (f id)]

theorem restartStream_trace (s : ClientState) (id : String) (f : String → Bool) :
    ((restartStream s id none (f id)).2).trace =
      s.trace ++ restartAttempts s.streams f id := by
  cases h : lookupStream s.streams id <;> cases hf : f id <;>
    simp [restartStream, restartAttempts, attemptEvent, h, hf]

theorem foldRestart_spec (f : String → Bool) :
    ∀ (keys : List String) (s : ClientState),
      ((keys.foldl (fun s2 streamId => (restartStream s2 streamId none (f streamId)).2) s).streams
          = s.streams) ∧
      ((keys.foldl (fun s2 streamId => (restartStream s2 streamId none (f streamId)).2) s).trace
          = s.trace ++ (keys.map (restartAttempts s.streams f)).flatten) := by
  intro keys
  induction keys with
  | nil =>
    intro s
    simp
  | cons id rest ih =>
    intro s
    have hstate := restartStream_state s id none (f id)
    have htrace := restartStream_trace s id f
    have ihs := ih ((restartStream s id none (f id)).2)
    have ihs1 := ihs.1
    have ihs2 := ihs.2
    rw [hstate.1] at ihs1 ihs2
    constructor
    · rw [List.foldl_cons]
      exact ihs1
    · rw [List.foldl_cons, ihs2, htrace]
      simp [List.append_assoc]

theorem isAttemptFor_attemptEvent (id : String) (m : OutboundMessage) (ok : Bool) :
    isAttemptFor id (attemptEvent m ok) = decide (m.req_id = id) := by
  cases ok <;> rfl

theorem restartMessageOf_req_id (r : StreamState) (mk : Option StreamMarker) :
    (restartMessageOf r mk).req_id = r.registrationMessage.req_id := by
  cases mk <;> cases h : r.activeMarker <;> simp [restartMessageOf, h]

theorem restartAttempts_flatten (f : String → Bool) :
    ∀ (L : List (String × StreamState)), (L.map Prod.fst).Nodup →
      ((L.map Prod.fst).map (restartAttempts L f)).flatten =
        L.map (fun q => attemptEvent (restartMessageOf q.2 none) (f q.1)) := by
  intro L
  induction L with
  | nil =>
    intro _
    simp
  | cons p rest ih =>
    rcases p with ⟨k, v⟩
    intro hN
    simp only [List.map_cons, List.nodup_cons] at hN
    have hhead : restartAttempts ((k, v) :: rest) f k =
        [attemptEvent (restartMessageOf v none) (f k)] := by
      simp [restartAttempts, lookupStream]
    have htail : (rest.map Prod.fst).map (restartAttempts ((k, v) :: rest) f) =
        (rest.map Prod.fst).map (restartAttempts rest f) := by
      apply List.map_congr_left
      intro id hid
      have hk : ¬ (k = id) := fun hh => hN.1 (hh ▸ hid)
      simp [restartAttempts, lookupStream, hk]
    simp only [List.map_cons, List.flatten_cons]
    rw [hhead, htail, ih hN.2]
    rfl

theorem count_restart_attempts (f : String → Bool) :
    ∀ (L : List (String × StreamState)) (p : String × StreamState),
      (L.map Prod.fst).Nodup →
      (∀ q ∈ L, q.2.registrationMessage.req_id = q.1) →
      p ∈ L →
      ((L.map (fun q => attemptEvent (restartMessageOf q.2 none) (f q.1))).filter
          (isAttemptFor p.1)).length = 1 := by
  intro L
  induction L with
  | nil =>
    intro p _ _ hm
    cases hm
  | cons q0 rest ih =>
    intro p hN hK hm
    simp only [List.map_cons, List.nodup_cons] at hN
    have hq0 : q0.2.registrationMessage.req_id = q0.1 :=
      hK q0 (List.mem_cons_self _ _)
    have hKrest : ∀ q ∈ rest, q.2.registrationMessage.req_id = q.1 :=
      fun q hq => hK q (List.mem_cons_of_mem _ hq)
    rcases List.mem_cons.mp hm with h1 | h1
    · subst h1
      have hfilterRest :
          (rest.map (fun q => attemptEvent (restartMessageOf q.2 none) (f q.1))).filter
            (isAttemptFor p.1) = [] := by
        apply List.filter_eq_nil_iff.mpr
        intro e he
        rcases List.mem_map.mp he with ⟨q1, hq1, rfl⟩
        have hne : ¬ (q1.1 = p.1) := by
          intro hh
          apply hN.1
          rw [← hh]
          exact List.mem_map.mpr ⟨q1, hq1, rfl⟩
        simp [isAttemptFor_attemptEvent, restartMessageOf_req_id, hKrest q1 hq1, hne]
      simp only [List.map_cons, List.filter_cons]
      rw [isAttemptFor_attemptEvent, restartMessageOf_req_id, hq0]
      simp [hfilterRest]
    · have hne : ¬ (q0.1 = p.1) := by
        intro hh
        apply hN.1
        rw [hh]
        exact List.mem_map.mpr ⟨p, h1, rfl⟩
      simp only [List.map_cons, List.filter_cons]
      rw [isAttemptFor_attemptEvent, restartMessageOf_req_id, hq0]
      simp only [hne, decide_False, Bool.false_eq_true, if_false]
      exact ih p hN.2 hKrest h1

end StreamClient

namespace StreamClient

/-- A client created with `autoRestartStreamsOnReconnect = false`, one stream. -/
def stOff : ClientState := (registerStream (initialState false) mA 0 true).2

/-- The state `stAB` after `mark` with block 99 on stream `a`. -/
def stM : ClientState := markStream stAB "a" ⟨99⟩

/-- A transport outcome where precisely stream `a`'s restart send fails. -/
def fW : String → Bool := fun id => !(id == "a")

def recAm : StreamState :=
  { registrationMessage := mA, activeMarker := some ⟨99⟩, onMessageToken := 0 }

/-- C5: on a reconnection notification, nothing happens when auto-restart is
disabled; when enabled, restart is invoked once per currently active stream
(one send attempt each, in registry order, carrying each stream's own
restart message — marker if marked, original start position otherwise) and
one stream's send failure does not prevent any other stream's restart from
being attempted (the equation holds for every outcome assignment `f`). -/
theorem reconnection_restarts_all (st : ClientState) (f : String → Bool)
    (hN : (st.streams.map Prod.fst).Nodup)
    (hK : ∀ q ∈ st.streams, q.2.registrationMessage.req_id = q.1) :
    (st.autoRestart = false → handleReconnection st f = st) ∧
    (st.autoRestart = true →
      newEvents st (handleReconnection st f) =
        st.streams.map (fun q => attemptEvent (restartMessageOf q.2 none) (f q.1)) ∧
      ∀ q ∈ st.streams,
        ((newEvents st (handleReconnection st f)).filter (isAttemptFor q.1)).length = 1) := by
  constructor
  · intro hA
    simp [handleReconnection, hA]
  · intro hA
    have hfold := foldRestart_spec f (st.streams.map Prod.fst) st
    have hrec : handleReconnection st f =
        (st.streams.map Prod.fst).foldl
          (fun s2 streamId => (restartStream s2 streamId none (f streamId)).2) st := by
      simp [handleReconnection, hA]
    have hevents : newEvents st (handleReconnection st f) =
        st.streams.map (fun q => attemptEvent (restartMessageOf q.2 none) (f q.1)) := by
      rw [hrec]
      apply newEvents_eq
      rw [hfold.2, restartAttempts_flatten f st.streams hN]
    refine ⟨hevents, ?_⟩
    intro q hq
    rw [hevents]
    exact count_restart_attempts f st.streams q hN hK hq

theorem reconnection_restarts_all_witness :
    handleReconnection stOff fW = stOff ∧
    newEvents stM (handleReconnection stM fW) =
      [Event.sendFailed { mA with start_block := some (99 : Int) },
       Event.sent mB] ∧
    ((newEvents stM (handleReconnection stM fW)).filter (isAttemptFor "a")).length = 1 := by
  have h1 := (reconnection_restarts_all stOff fW (by decide) (by decide)).1 (by decide)
  have h2 := (reconnection_restarts_all stM fW (by decide) (by decide)).2 (by decide)
  refine ⟨h1, ?_, ?_⟩
  · rw [h2.1]
    decide
  · exact h2.2 ("a", recAm) (by decide)

end StreamClient
